import Mathlib

/-!
Shallow embedding of the pgs-rs PGS (Presentation Graphics Stream) decoder,
covering src/parse.rs and src/render.rs.

Bytes are modelled as natural numbers below 256 and byte buffers as lists of
naturals.  A parser has type List Nat → Option (α × List Nat): it returns the
parsed value together with the remaining input, and none models a winnow parse
error (every error raised by the source is a backtrack error; no cut errors are
used).  Rust u16/u24/u32 reads produce plain naturals, which cannot overflow
since they are assembled from bytes.  The `x >> 6` and `x & 0x3F` byte
operations of the source are written `x / 64` and `x % 64`, which agree with
the bit operations on every natural number.
-/

deriving instance DecidableEq for Except

/-- Alternation of two already-evaluated parser results, mirroring the winnow
alt combinator: the second branch is used only when the first fails. -/
def alt2 {α : Type} (a b : Option α) : Option α :=
  match a with
  | some x => some x
  | none => b

/-- CompositionState from src/parse.rs. -/
inductive CompositionState where
  | Normal
  | AcquisitionPoint
  | EpochStart
  deriving DecidableEq, Repr

/-- LastInSequence from src/parse.rs. -/
inductive LastInSequence where
  | Last
  | First
  | FirstAndLast
  deriving DecidableEq, Repr

/-- RlEncodedPixels from src/parse.rs: one decoded run, a pixel count
(u16 in the source) and a color index (u8 in the source). -/
structure RlEncodedPixels where
  count : Nat
  color : Nat
  deriving DecidableEq, Repr

/-- PaletteEntry from src/parse.rs lines 90-97.  The field order matters: the
Struple derive fills the fields in declaration order from the parsed 5-byte
tuple, so the third wire byte lands in color_difference_red and the fourth in
color_difference_blue. -/
structure PaletteEntry where
  id : Nat
  luminance : Nat
  color_difference_red : Nat
  color_difference_blue : Nat
  alpha : Nat
  deriving DecidableEq, Repr

/-- Window from src/parse.rs. -/
structure Window where
  id : Nat
  horizontal_position : Nat
  vertical_position : Nat
  width : Nat
  height : Nat
  deriving DecidableEq, Repr

/-- CropInfo from src/parse.rs. -/
structure CropInfo where
  horizontal_position : Nat
  vertical_position : Nat
  width : Nat
  height : Nat
  deriving DecidableEq, Repr

/-- CompositionObject from src/parse.rs. -/
structure CompositionObject where
  id : Nat
  window_id : Nat
  horizontal_position : Nat
  vertical_position : Nat
  cropped : Option CropInfo
  deriving DecidableEq, Repr

/-- ObjectDefinition from src/parse.rs.  The RunLengthEncodedData newtype of
the source is inlined as the list of decoded runs. -/
structure ObjectDefinition where
  id : Nat
  version : Nat
  last_in_sequence : LastInSequence
  width : Nat
  height : Nat
  data : List RlEncodedPixels
  deriving DecidableEq, Repr

/-- Insert-with-overwrite into an association list, modelling HashMap::insert
of the source: the new binding is placed in front and lookups take the first
match, so a later insert with the same key shadows an earlier one. -/
def map_insert {α : Type} (m : List (Nat × α)) (k : Nat) (v : α) :
    List (Nat × α) :=
  (k, v) :: m

/-- Lookup in an association list, modelling HashMap::get of the source. -/
def map_get {α : Type} (m : List (Nat × α)) (k : Nat) : Option α :=
  (m.find? (fun p => p.1 == k)).map Prod.snd

/-- PaletteDefinition from src/parse.rs; entries is the id-keyed mapping built
by parse_palette_entries. -/
structure PaletteDefinition where
  id : Nat
  version : Nat
  entries : List (Nat × PaletteEntry)
  deriving DecidableEq, Repr

/-- WindowDefinition from src/parse.rs. -/
structure WindowDefinition where
  windows : List Window
  deriving DecidableEq, Repr

/-- PresentationComposition from src/parse.rs. -/
structure PresentationComposition where
  width : Nat
  height : Nat
  frame_rate : Nat
  composition_number : Nat
  composition_state : CompositionState
  palette_update : Bool
  palette_id : Nat
  composition_objects : List CompositionObject
  deriving DecidableEq, Repr

/-- SegmentContents from src/parse.rs. -/
inductive SegmentContents where
  | PresentationComposition (pc : PresentationComposition)
  | WindowDefinition (wd : WindowDefinition)
  | PaletteDefinition (pd : PaletteDefinition)
  | ObjectDefinition (od : ObjectDefinition)
  | End
  deriving DecidableEq, Repr

/-- Segment from src/parse.rs. -/
structure Segment where
  pts : Nat
  dts : Nat
  contents : SegmentContents
  deriving DecidableEq, Repr

/-- Pgs from src/parse.rs. -/
structure Pgs where
  segments : List Segment
  deriving DecidableEq, Repr

/-- winnow be_u8: take one byte. -/
def be_u8 (input : List Nat) : Option (Nat × List Nat) :=
  match input with
  | b :: rest => some (b, rest)
  | [] => none

/-- winnow be_u16: two bytes, big endian. -/
def be_u16 (input : List Nat) : Option (Nat × List Nat) :=
  match input with
  | a :: b :: rest => some (a * 256 + b, rest)
  | _ => none

/-- winnow be_u24: three bytes, big endian. -/
def be_u24 (input : List Nat) : Option (Nat × List Nat) :=
  match input with
  | a :: b :: c :: rest => some ((a * 256 + b) * 256 + c, rest)
  | _ => none

/-- winnow be_u32: four bytes, big endian. -/
def be_u32 (input : List Nat) : Option (Nat × List Nat) :=
  match input with
  | a :: b :: c :: d :: rest => some (((a * 256 + b) * 256 + c) * 256 + d, rest)
  | _ => none

/-- The slice-taking part of winnow length_and_then: parse a length prefix,
then split off exactly that many bytes, failing when fewer are available.
The caller runs an inner parser on the returned slice; bytes of the slice the
inner parser leaves unconsumed are dropped, matching winnow, whose and_then
does not require the inner parser to exhaust the slice. -/
def length_take (lenP : List Nat → Option (Nat × List Nat))
    (input : List Nat) : Option (List Nat × List Nat) := do
  let (n, rest) ← lenP input
  if n ≤ rest.length then some (rest.take n, rest.drop n) else none

/-- parse_single_encoded_pixel from src/parse.rs lines 183-222: the six-branch
winnow alt over run-length cases.  Branches after the first do not themselves
inspect the leading byte, exactly like the source, where alt only reaches them
after the first branch has rejected a zero leading byte. -/
def parse_single_encoded_pixel (input : List Nat) :
    Option (RlEncodedPixels × List Nat) :=
  alt2
    (match input with
     | v :: rest => if v ≠ 0 then some ({ count := 1, color := v }, rest) else none
     | _ => none)
  (alt2
    (match input with
     | _ :: v1 :: rest =>
         if v1 / 64 = 0 then some ({ count := v1 % 64, color := 0 }, rest) else none
     | _ => none)
  (alt2
    (match input with
     | _ :: v1 :: v2 :: rest =>
         if v1 / 64 = 1 then
           some ({ count := v1 % 64 * 256 + v2, color := 0 }, rest)
         else none
     | _ => none)
  (alt2
    (match input with
     | _ :: v1 :: v2 :: rest =>
         if v1 / 64 = 2 then some ({ count := v1 % 64, color := v2 }, rest) else none
     | _ => none)
  (alt2
    (match input with
     | _ :: v1 :: v2 :: v3 :: rest =>
         if v1 / 64 = 3 then
           some ({ count := v1 % 64 * 256 + v2, color := v3 }, rest)
         else none
     | _ => none)
    (match input with
     | b0 :: b1 :: rest =>
         if b0 * 256 + b1 = 0 then some ({ count := 0, color := 0 }, rest) else none
     | _ => none)))))

/-- Fuel-indexed body of winnow repeat(0.., parse_single_encoded_pixel):
repeat until the first (backtrack) failure, leaving the rest of the input
unconsumed.  Every successful step consumes at least one byte, so fuel equal
to the input length makes the fuel-exhausted branch unreachable from the
wrapper below. -/
def parse_run_length_encoded_pixels_fuel :
    Nat → List Nat → List RlEncodedPixels × List Nat
  | 0, input => ([], input)
  | fuel + 1, input =>
    match parse_single_encoded_pixel input with
    | some (px, rest) =>
      let r := parse_run_length_encoded_pixels_fuel fuel rest
      (px :: r.1, r.2)
    | none => ([], input)

/-- parse_run_length_encoded_pixels from src/parse.rs lines 179-181. -/
def parse_run_length_encoded_pixels (input : List Nat) :
    List RlEncodedPixels × List Nat :=
  parse_run_length_encoded_pixels_fuel input.length input

/-- parse_last_in_sequence from src/parse.rs: alt of the three verified
byte values 0x40, 0x80, 0xC0. -/
def parse_last_in_sequence (input : List Nat) :
    Option (LastInSequence × List Nat) :=
  match input with
  | b :: rest =>
    if b = 0x40 then some (LastInSequence.Last, rest)
    else if b = 0x80 then some (LastInSequence.First, rest)
    else if b = 0xC0 then some (LastInSequence.FirstAndLast, rest)
    else none
  | [] => none

/-- parse_object_definition_segment from src/parse.rs lines 152-172: outer
2-byte length, then id, version, sequence flag, then an inner 3-byte length
delimiting width, height and the run-length pixel data. -/
def parse_object_definition_segment (input : List Nat) :
    Option (ObjectDefinition × List Nat) := do
  let (payload, rest) ← length_take be_u16 input
  let (id, p1) ← be_u16 payload
  let (version, p2) ← be_u8 p1
  let (lis, p3) ← parse_last_in_sequence p2
  let (inner, _) ← length_take be_u24 p3
  let (width, q1) ← be_u16 inner
  let (height, q2) ← be_u16 q1
  let data := (parse_run_length_encoded_pixels q2).1
  some ({ id := id, version := version, last_in_sequence := lis,
          width := width, height := height, data := data }, rest)

/-- parse_palette_entry from src/parse.rs lines 250-254: five be_u8 reads
filled into the PaletteEntry fields in declaration order by the Struple
derive. -/
def parse_palette_entry (input : List Nat) : Option (PaletteEntry × List Nat) :=
  match input with
  | b0 :: b1 :: b2 :: b3 :: b4 :: rest =>
    some ({ id := b0, luminance := b1, color_difference_red := b2,
            color_difference_blue := b3, alpha := b4 }, rest)
  | _ => none

/-- Fuel-indexed winnow repeat(0.., parse_palette_entry); each successful step
consumes five bytes, so fuel equal to the input length is sufficient. -/
def parse_palette_entry_list_fuel :
    Nat → List Nat → List PaletteEntry × List Nat
  | 0, input => ([], input)
  | fuel + 1, input =>
    match parse_palette_entry input with
    | some (e, rest) =>
      let r := parse_palette_entry_list_fuel fuel rest
      (e :: r.1, r.2)
    | none => ([], input)

/-- parse_palette_entries from src/parse.rs lines 241-248: repeat entries,
then fold them into the id-keyed mapping, later entries overwriting. -/
def parse_palette_entries (input : List Nat) :
    List (Nat × PaletteEntry) × List Nat :=
  let r := parse_palette_entry_list_fuel input.length input
  (r.1.foldl (fun m e => map_insert m e.id e) [], r.2)

/-- parse_palette_definition_segment from src/parse.rs lines 235-239. -/
def parse_palette_definition_segment (input : List Nat) :
    Option (PaletteDefinition × List Nat) := do
  let (payload, rest) ← length_take be_u16 input
  let (id, p1) ← be_u8 payload
  let (version, p2) ← be_u8 p1
  let entries := (parse_palette_entries p2).1
  some ({ id := id, version := version, entries := entries }, rest)

/-- parse_window from src/parse.rs lines 262-266. -/
def parse_window (input : List Nat) : Option (Window × List Nat) := do
  let (id, p1) ← be_u8 input
  let (h, p2) ← be_u16 p1
  let (v, p3) ← be_u16 p2
  let (w, p4) ← be_u16 p3
  let (hh, p5) ← be_u16 p4
  some ({ id := id, horizontal_position := h, vertical_position := v,
          width := w, height := hh }, p5)

/-- The repetition part of winnow length_repeat(be_u8, parse_window): exactly
count occurrences, failing if any of them fails. -/
def parse_count_windows : Nat → List Nat → Option (List Window × List Nat)
  | 0, input => some ([], input)
  | n + 1, input => do
    let (w, rest) ← parse_window input
    let (ws, rest2) ← parse_count_windows n rest
    some (w :: ws, rest2)

/-- parse_window_definition_segment from src/parse.rs lines 256-260. -/
def parse_window_definition_segment (input : List Nat) :
    Option (WindowDefinition × List Nat) := do
  let (payload, rest) ← length_take be_u16 input
  let (count, p1) ← be_u8 payload
  let (ws, _) ← parse_count_windows count p1
  some ({ windows := ws }, rest)

/-- parse_composition_state from src/parse.rs lines 287-298. -/
def parse_composition_state (input : List Nat) :
    Option (CompositionState × List Nat) :=
  match input with
  | b :: rest =>
    if b = 0x00 then some (CompositionState.Normal, rest)
    else if b = 0x40 then some (CompositionState.AcquisitionPoint, rest)
    else if b = 0x80 then some (CompositionState.EpochStart, rest)
    else none
  | [] => none

/-- parse_palette_update_flag from src/parse.rs lines 300-306. -/
def parse_palette_update_flag (input : List Nat) : Option (Bool × List Nat) :=
  match input with
  | b :: rest =>
    if b = 0x00 then some (false, rest)
    else if b = 0x80 then some (true, rest)
    else none
  | [] => none

/-- parse_object_cropped_flag from src/parse.rs lines 330-333: any byte is
accepted, 0x40 meaning cropped. -/
def parse_object_cropped_flag (input : List Nat) : Option (Bool × List Nat) :=
  match input with
  | b :: rest => some (b == 0x40, rest)
  | [] => none

/-- parse_composition_object from src/parse.rs lines 308-328. -/
def parse_composition_object (input : List Nat) :
    Option (CompositionObject × List Nat) := do
  let (id, p1) ← be_u16 input
  let (window_id, p2) ← be_u8 p1
  let (cropped, p3) ← parse_object_cropped_flag p2
  let (h, p4) ← be_u16 p3
  let (v, p5) ← be_u16 p4
  if cropped then
    let (ch, q1) ← be_u16 p5
    let (cv, q2) ← be_u16 q1
    let (cw, q3) ← be_u16 q2
    let (chh, q4) ← be_u16 q3
    some ({ id := id, window_id := window_id, horizontal_position := h,
            vertical_position := v,
            cropped := some { horizontal_position := ch, vertical_position := cv,
                              width := cw, height := chh } }, q4)
  else
    some ({ id := id, window_id := window_id, horizontal_position := h,
            vertical_position := v, cropped := none }, p5)

/-- The repetition part of winnow length_repeat(be_u8, parse_composition_object). -/
def parse_count_composition_objects :
    Nat → List Nat → Option (List CompositionObject × List Nat)
  | 0, input => some ([], input)
  | n + 1, input => do
    let (o, rest) ← parse_composition_object input
    let (os, rest2) ← parse_count_composition_objects n rest
    some (o :: os, rest2)

/-- parse_presentation_composition_segment from src/parse.rs lines 268-285. -/
def parse_presentation_composition_segment (input : List Nat) :
    Option (PresentationComposition × List Nat) := do
  let (payload, rest) ← length_take be_u16 input
  let (width, p1) ← be_u16 payload
  let (height, p2) ← be_u16 p1
  let (frame_rate, p3) ← be_u8 p2
  let (composition_number, p4) ← be_u16 p3
  let (state, p5) ← parse_composition_state p4
  let (pu, p6) ← parse_palette_update_flag p5
  let (palette_id, p7) ← be_u8 p6
  let (count, p8) ← be_u8 p7
  let (objs, _) ← parse_count_composition_objects count p8
  some ({ width := width, height := height, frame_rate := frame_rate,
          composition_number := composition_number, composition_state := state,
          palette_update := pu, palette_id := palette_id,
          composition_objects := objs }, rest)

/-- parse_end_of_display_set_segment from src/parse.rs lines 147-150. -/
def parse_end_of_display_set_segment (input : List Nat) :
    Option (Unit × List Nat) := do
  let (v, rest) ← be_u16 input
  if v = 0 then some ((), rest) else none

/-- parse_segment from src/parse.rs lines 128-145: the PG magic, both
timestamps and the type-tag dispatch. -/
def parse_segment (input : List Nat) : Option (Segment × List Nat) := do
  let (magic, p1) ← be_u16 input
  if magic = 0x5047 then
    let (pts, p2) ← be_u32 p1
    let (dts, p3) ← be_u32 p2
    let (tag, p4) ← be_u8 p3
    let (contents, p5) ←
      if tag = 0x14 then
        (parse_palette_definition_segment p4).map
          (fun r => (SegmentContents.PaletteDefinition r.1, r.2))
      else if tag = 0x15 then
        (parse_object_definition_segment p4).map
          (fun r => (SegmentContents.ObjectDefinition r.1, r.2))
      else if tag = 0x16 then
        (parse_presentation_composition_segment p4).map
          (fun r => (SegmentContents.PresentationComposition r.1, r.2))
      else if tag = 0x17 then
        (parse_window_definition_segment p4).map
          (fun r => (SegmentContents.WindowDefinition r.1, r.2))
      else if tag = 0x80 then
        (parse_end_of_display_set_segment p4).map
          (fun r => (SegmentContents.End, r.2))
      else none
    some ({ pts := pts, dts := dts, contents := contents }, p5)
  else none

/-- Fuel-indexed winnow repeat(0.., parse_segment); each successful step
consumes at least two bytes, so fuel equal to the input length suffices. -/
def parse_segments_fuel : Nat → List Nat → List Segment × List Nat
  | 0, input => ([], input)
  | fuel + 1, input =>
    match parse_segment input with
    | some (s, rest) =>
      let r := parse_segments_fuel fuel rest
      (s :: r.1, r.2)
    | none => ([], input)

/-- parse_pgs from src/parse.rs lines 123-126: repeat(1.., parse_segment)
driven by Parser::parse, which demands at least one segment and a fully
consumed buffer. -/
def parse_pgs (input : List Nat) : Option Pgs :=
  let r := parse_segments_fuel input.length input
  match r.1, r.2 with
  | [], _ => none
  | segs, [] => some { segments := segs }
  | _, _ :: _ => none

/-- DisplaySet from src/render.rs lines 18-33; the borrowed slices and maps of
the source are stored by value. -/
structure DisplaySet where
  presentation_timestamp : Nat
  decoding_timestamp : Nat
  width : Nat
  height : Nat
  frame_rate : Nat
  composition_number : Nat
  composition_state : CompositionState
  palette_update : Bool
  palette_id : Nat
  composition_objects : List CompositionObject
  windows : List (Nat × Window)
  palettes : List (Nat × PaletteDefinition)
  objects : List (Nat × ObjectDefinition)
  deriving DecidableEq, Repr

/-- The mutable fields of DisplaySetIterator from src/render.rs lines 41-58:
the position in the segment list plus the three carried maps. -/
structure IterState where
  index : Nat
  windows : List (Nat × Window)
  palettes : List (Nat × PaletteDefinition)
  objects : List (Nat × ObjectDefinition)
  deriving DecidableEq, Repr

/-- The initial iterator state built by DisplaySetIterator::new. -/
def IterState.new : IterState :=
  { index := 0, windows := [], palettes := [], objects := [] }

/-- Outcome of one DisplaySetIterator::next call.  ended models returning
None; panicked models the Rust panic macro aborting the walk; yielded carries
the produced display set and the successor iterator state. -/
inductive NextResult where
  | ended
  | panicked (msg : String)
  | yielded (ds : DisplaySet) (s : IterState)
  deriving DecidableEq, Repr

/-- Outcome of the inner accumulation loop of next (src/render.rs lines
98-133), before the iterator state is reassembled. -/
inductive AccResult where
  | ended
  | panicked (msg : String)
  | yielded (ds : DisplaySet) (nextIndex : Nat)
  deriving DecidableEq, Repr

/-- Merge the windows of one WindowDefinition into a window map, keyed by
window id (src/render.rs lines 112-116). -/
def insert_windows (m : List (Nat × Window)) (ws : List Window) :
    List (Nat × Window) :=
  ws.foldl (fun acc w => map_insert acc w.id w) m

/-- Fuel-indexed translation of the loop in DisplaySetIterator::next
(src/render.rs lines 98-133).  Each iteration advances the segment index by
one, so fuel equal to the number of segments makes the fuel-exhausted branch
unreachable from the wrapper; that branch returns ended, exactly what the
source loop produces once the index passes the end of the segment list. -/
def accumulate_group (segs : List Segment) (pts dts : Nat) :
    Nat → DisplaySet → Nat → AccResult
  | 0, _, _ => AccResult.ended
  | fuel + 1, ds, idx =>
    match segs[idx]? with
    | none => AccResult.ended
    | some seg =>
      if seg.pts ≠ pts then AccResult.panicked "Presentation timestamp mismatch"
      else if seg.dts ≠ dts then AccResult.panicked "Decoding timestamp mismatch"
      else
        match seg.contents with
        | SegmentContents.PresentationComposition _ =>
          AccResult.panicked "Presentation composition in the middle of a display set"
        | SegmentContents.WindowDefinition wd =>
          accumulate_group segs pts dts fuel
            { ds with windows := insert_windows ds.windows wd.windows } (idx + 1)
        | SegmentContents.PaletteDefinition pd =>
          accumulate_group segs pts dts fuel
            { ds with palettes := map_insert ds.palettes pd.id pd } (idx + 1)
        | SegmentContents.ObjectDefinition od =>
          accumulate_group segs pts dts fuel
            { ds with objects := map_insert ds.objects od.id od } (idx + 1)
        | SegmentContents.End => AccResult.yielded ds (idx + 1)

/-- DisplaySetIterator::next from src/render.rs lines 62-134.  Note that the
loop only ever inserts into the maps of the in-progress display set clone;
the carried maps of the iterator itself are read and possibly cleared, never
extended, exactly as in the source. -/
def DisplaySetIterator.next (pgs : Pgs) (s : IterState) : NextResult :=
  match pgs.segments[s.index]? with
  | none => NextResult.ended
  | some seg =>
    match seg.contents with
    | SegmentContents.PresentationComposition pc =>
      let carried :=
        if pc.composition_state = CompositionState.EpochStart then
          (([] : List (Nat × Window)), ([] : List (Nat × PaletteDefinition)),
           ([] : List (Nat × ObjectDefinition)))
        else (s.windows, s.palettes, s.objects)
      let ds : DisplaySet :=
        { presentation_timestamp := seg.pts, decoding_timestamp := seg.dts,
          width := pc.width, height := pc.height, frame_rate := pc.frame_rate,
          composition_number := pc.composition_number,
          composition_state := pc.composition_state,
          palette_update := pc.palette_update, palette_id := pc.palette_id,
          composition_objects := pc.composition_objects,
          windows := carried.1, palettes := carried.2.1, objects := carried.2.2 }
      match accumulate_group pgs.segments seg.pts seg.dts
          (pgs.segments.length + 1) ds (s.index + 1) with
      | AccResult.ended => NextResult.ended
      | AccResult.panicked m => NextResult.panicked m
      | AccResult.yielded ds' newIndex =>
        NextResult.yielded ds'
          { index := newIndex, windows := carried.1,
            palettes := carried.2.1, objects := carried.2.2 }
    | _ => NextResult.ended

/-- Fuel-indexed walk of the whole iterator: pull display sets until the
iterator ends, turning a panic into an error value.  A yield consumes at
least two segments, so fuel equal to the segment count plus one is ample for
the wrapper below. -/
def display_sets_from (pgs : Pgs) : Nat → IterState → Except String (List DisplaySet)
  | 0, _ => Except.ok []
  | fuel + 1, s =>
    match DisplaySetIterator.next pgs s with
    | NextResult.ended => Except.ok []
    | NextResult.panicked m => Except.error m
    | NextResult.yielded ds s' =>
      (display_sets_from pgs fuel s').map (fun l => ds :: l)

/-- get_display_sets from src/render.rs lines 137-139: the full walk from the
initial iterator state. -/
def get_display_sets (pgs : Pgs) : Except String (List DisplaySet) :=
  display_sets_from pgs (pgs.segments.length + 1) IterState.new

/-- PIXEL_SIZE constant from src/render.rs line 13. -/
def PIXEL_SIZE : Nat := 4

/-- is_cropped_1 from src/render.rs lines 225-235: the coordinates tested
against the crop rectangle are the global buffer pixel index reduced modulo
the crop rectangle width.  (For a zero crop width the Rust division would
panic; no composition object in this development has one, and Lean division
by zero yields zero there.) -/
def is_cropped_1 (pixel_offset top_left_x top_left_y width height : Nat) : Bool :=
  let x := (pixel_offset / PIXEL_SIZE) % width
  let y := (pixel_offset / PIXEL_SIZE) / width
  x < top_left_x || x ≥ top_left_x + width || y < top_left_y || y ≥ top_left_y + height

/-- is_cropped from src/render.rs lines 212-223. -/
def is_cropped (pixel_offset : Nat) (object : CompositionObject) : Bool :=
  match object.cropped with
  | some cropped =>
    is_cropped_1 pixel_offset cropped.horizontal_position
      cropped.vertical_position cropped.width cropped.height
  | none => false

/-- move_one_pixel_forward from src/render.rs lines 237-248. -/
def move_one_pixel_forward (pixel_offset width horizontal_position object_width : Nat) :
    Nat :=
  let po := pixel_offset + PIXEL_SIZE
  let x := (po / PIXEL_SIZE) % width
  if x = horizontal_position + object_width then po + (width - object_width) * PIXEL_SIZE
  else po

/-- Errors of the renderer, from src/error.rs (the display-set string of the
source error payloads is dropped) together with IndexPanic, which models the
Rust index-out-of-bounds panic on a buffer write. -/
inductive RenderErr where
  | ObjectNotFound (object_id : Nat)
  | PaletteNotFound (palette_id : Nat) (entry_id : Nat)
  | YuvError
  | IndexPanic
  deriving DecidableEq, Repr

/-- The four buffer writes of src/render.rs lines 174-177, with the bounds
check of the Rust indexing: an out-of-range write is the IndexPanic error. -/
def write_pixel (buf : List Nat) (off : Nat) (e : PaletteEntry) :
    Option (List Nat) :=
  if off + 3 < buf.length then
    some ((((buf.set off e.alpha).set (off + 1) e.luminance).set
        (off + 2) e.color_difference_blue).set (off + 3) e.color_difference_red)
  else none

/-- The per-pixel loop of src/render.rs lines 172-185: for each of the count
pixels of a run, write the resolved entry unless is_cropped holds, then move
the cursor one pixel forward. -/
def paint_run (width : Nat) (co : CompositionObject) (object_width : Nat)
    (e : PaletteEntry) : Nat → List Nat → Nat → Option (List Nat × Nat)
  | 0, buf, off => some (buf, off)
  | n + 1, buf, off => do
    let buf' ← if is_cropped off co then some buf else write_pixel buf off e
    let off' := move_one_pixel_forward off width co.horizontal_position object_width
    paint_run width co object_width e n buf' off'

/-- The palette lookup of src/render.rs lines 160-171: always palette id 0,
then the color index within it. -/
def resolve_color (palettes : List (Nat × PaletteDefinition)) (color : Nat) :
    Option PaletteEntry :=
  (map_get palettes 0).bind (fun pd => map_get pd.entries color)

/-- The per-run loop of src/render.rs lines 159-186 for one composition
object. -/
def paint_runs (palettes : List (Nat × PaletteDefinition)) (width : Nat)
    (co : CompositionObject) (object_width : Nat) :
    List RlEncodedPixels → List Nat → Nat → Except RenderErr (List Nat × Nat)
  | [], buf, off => Except.ok (buf, off)
  | r :: rs, buf, off =>
    match resolve_color palettes r.color with
    | none => Except.error (RenderErr.PaletteNotFound 0 r.color)
    | some e =>
      match paint_run width co object_width e r.count buf off with
      | none => Except.error RenderErr.IndexPanic
      | some (buf', off') => paint_runs palettes width co object_width rs buf' off'

/-- The per-object loop of src/render.rs lines 147-187: look the object up by
id, start the cursor at its screen position, then paint its runs. -/
def paint_objects (ds : DisplaySet) :
    List CompositionObject → List Nat → Except RenderErr (List Nat)
  | [], buf => Except.ok buf
  | co :: cos, buf =>
    match map_get ds.objects co.id with
    | none => Except.error (RenderErr.ObjectNotFound co.id)
    | some object =>
      let x := co.horizontal_position
      let y := co.vertical_position
      let pixel_offset := (y * ds.width + x) * PIXEL_SIZE
      match paint_runs ds.palettes ds.width co object.width
          object.data buf pixel_offset with
      | Except.error e => Except.error e
      | Except.ok (buf', _) => paint_objects ds cos buf'

/-- The compositing stage of render_display_set (src/render.rs lines
141-187): paint every composition object into a zero-filled packed buffer of
stride times height bytes. -/
def render_paint (ds : DisplaySet) : Except RenderErr (List Nat) :=
  paint_objects ds ds.composition_objects
    (List.replicate (ds.width * PIXEL_SIZE * ds.height) 0)

/-- Clamp an integer to a byte. -/
def clamp_byte (n : Int) : Nat :=
  Int.toNat (max 0 (min 255 n))

/-- Round n / 10000 to the nearest integer using a floor division. -/
def cvt_round (n : Int) : Int :=
  Int.fdiv (n + 5000) 10000

/-- Modelled from the spec: the external color-space conversion step
(the yuv crate call ayuv_to_rgba with YuvRange::Full and
YuvStandardMatrix::Bt709, src/render.rs lines 200-207, which is not part of
this repository).  One packed pixel (alpha, luminance, chroma-blue-diff,
chroma-red-diff) becomes one RGBA pixel under the fixed BT.709 full-range
matrix: the chroma bytes are biased by 128 and the conventional coefficients
1.5748, 1.8556, 0.1873 and 0.4681 are applied, scaled here by ten thousand,
rounded to nearest and clamped to a byte; the alpha byte passes through
unchanged. -/
def ayuv_pixel_to_rgba (a y u v : Nat) : List Nat :=
  let yi : Int := y
  let cb : Int := (u : Int) - 128
  let cr : Int := (v : Int) - 128
  [clamp_byte (cvt_round (10000 * yi + 15748 * cr)),
   clamp_byte (cvt_round (10000 * yi - 1873 * cb - 4681 * cr)),
   clamp_byte (cvt_round (10000 * yi + 18556 * cb)),
   a]

/-- Modelled from the spec: the whole-buffer form of the external converter,
processing the packed buffer four bytes at a time. -/
def ayuv_to_rgba_bytes : List Nat → List Nat
  | a :: y :: u :: v :: rest => ayuv_pixel_to_rgba a y u v ++ ayuv_to_rgba_bytes rest
  | _ => []

/-- Modelled from the spec: the geometric validation the converter performs
before converting (check_constraints444 of the external yuv crate) — the
packed buffer must be exactly stride times height bytes with stride equal to
four bytes per pixel of width. -/
def check_constraints444 (width height stride : Nat) (buf : List Nat) : Bool :=
  stride == width * PIXEL_SIZE && buf.length == stride * height

/-- render_display_set from src/render.rs lines 141-210: paint the packed
buffer, validate it, then convert it with the (spec-modelled) external
converter. -/
def render_display_set (ds : DisplaySet) : Except RenderErr (List Nat) :=
  match render_paint ds with
  | Except.error e => Except.error e
  | Except.ok buf =>
    if check_constraints444 ds.width ds.height (ds.width * PIXEL_SIZE) buf then
      Except.ok (ayuv_to_rgba_bytes buf)
    else Except.error RenderErr.YuvError

/-- Modelled from the spec, for comparison with the source decoder: the byte
shapes of the five cases of the run-length decode table (the 0x00 0x00 marker
is the zero instance of the second shape).  An input matches when it begins
with a nonzero byte; or with a zero byte, a dispatch byte whose top two bits
select a case, and enough following bytes for that case. -/
def spec_rle_case_shape : List Nat → Bool
  | [] => false
  | v :: tail =>
    if v ≠ 0 then true
    else
      match tail with
      | [] => false
      | b :: tail2 =>
        if b / 64 = 0 then true
        else
          match tail2 with
          | [] => false
          | _ :: tail3 =>
            if b / 64 = 1 then true
            else if b / 64 = 2 then true
            else if b / 64 = 3 then !tail3.isEmpty
            else false

/-- C1: the run-length pixel decoder maps each input byte pattern per the
five-case dispatch — 0x05 gives run (1, color 5); 0x00 0x05 gives (5, 0);
0x00 0x45 0x0A gives (1290, 0); 0x00 0x85 0x07 gives (5, 7);
0x00 0xC5 0x0A 0x09 gives (1290, 9); 0x00 0x00 gives (0, 0) — and a payload
prefix matching none of the case shapes is a parse error. -/
theorem parse_single_encoded_pixel_decode_table :
    (parse_single_encoded_pixel [0x05] = some ({ count := 1, color := 5 }, []) ∧
     parse_single_encoded_pixel [0x00, 0x05] = some ({ count := 5, color := 0 }, []) ∧
     parse_single_encoded_pixel [0x00, 0x45, 0x0A] =
       some ({ count := 1290, color := 0 }, []) ∧
     parse_single_encoded_pixel [0x00, 0x85, 0x07] =
       some ({ count := 5, color := 7 }, []) ∧
     parse_single_encoded_pixel [0x00, 0xC5, 0x0A, 0x09] =
       some ({ count := 1290, color := 9 }, []) ∧
     parse_single_encoded_pixel [0x00, 0x00] = some ({ count := 0, color := 0 }, [])) ∧
    ∀ input, spec_rle_case_shape input = false →
      parse_single_encoded_pixel input = none := by
  refine ⟨⟨by decide, by decide, by decide, by decide, by decide, by decide⟩, ?_⟩
  intro input h
  match input with
  | [] => rfl
  | v :: tail =>
    by_cases hv : v = 0
    · subst hv
      match tail with
      | [] => rfl
      | b :: tail2 =>
        have hb0 : ¬ b / 64 = 0 := by
          intro hb
          simp [spec_rle_case_shape, hb] at h
        have hbne : b ≠ 0 := by
          intro hbe
          exact hb0 (by simp [hbe])
        match tail2 with
        | [] => simp [parse_single_encoded_pixel, alt2, hb0, hbne]
        | c :: tail3 =>
          have hb1 : ¬ b / 64 = 1 := by
            intro hb
            simp [spec_rle_case_shape, hb] at h
          have hb2 : ¬ b / 64 = 2 := by
            intro hb
            simp [spec_rle_case_shape, hb] at h
          by_cases hb3 : b / 64 = 3
          · have h3 : tail3 = [] := by
              simp [spec_rle_case_shape, hb0, hb1, hb2, hb3] at h
              exact h
            subst h3
            simp [parse_single_encoded_pixel, alt2, hb0, hb1, hb2, hb3, hbne]
          · match tail3 with
            | [] => simp [parse_single_encoded_pixel, alt2, hb0, hb1, hb2, hb3, hbne]
            | d :: tail4 =>
              simp [parse_single_encoded_pixel, alt2, hb0, hb1, hb2, hb3, hbne]
    · simp [spec_rle_case_shape, hv] at h

/-- Witness for the hypothesised part of the decode-table theorem: the
two-byte input 0x00 0x40 matches no case shape (the long-background case
needs a third byte) and the decoder rejects it. -/
theorem parse_single_encoded_pixel_decode_table_witness :
    spec_rle_case_shape [0x00, 0x40] = false ∧
      parse_single_encoded_pixel [0x00, 0x40] = none :=
  ⟨by decide, parse_single_encoded_pixel_decode_table.2 [0x00, 0x40] (by decide)⟩

/-- C4 counterexample: parsing the palette entry wire bytes (0, 1, 2, 3, 4)
yields an entry whose blue chroma-difference field holds the fourth byte and
whose red chroma-difference field holds the third, refuting the claim that
byte b2 is the blue difference and b3 the red. -/
theorem parse_palette_entry_wire_order_counterexample :
    (parse_palette_entry [0, 1, 2, 3, 4]).map
        (fun r => (r.1.color_difference_blue, r.1.color_difference_red)) =
      some (3, 2) ∧
    some ((3 : Nat), (2 : Nat)) ≠ some ((2 : Nat), (3 : Nat)) := by
  decide

/-- C4 as amended: a successfully parsed 5-byte palette entry with wire bytes
(b0, b1, b2, b3, b4) has entry id b0, luminance b1, chroma-red-difference b2,
chroma-blue-difference b3 and alpha b4 — on the wire the red
chroma-difference byte precedes the blue one. -/
theorem parse_palette_entry_field_order (b0 b1 b2 b3 b4 : Nat) (rest : List Nat) :
    parse_palette_entry (b0 :: b1 :: b2 :: b3 :: b4 :: rest) =
      some ({ id := b0, luminance := b1, color_difference_red := b2,
              color_difference_blue := b3, alpha := b4 }, rest) := rfl

/-- Total of the decoded run lengths of an object, as summed by the Debug
implementation of RunLengthEncodedData in src/parse.rs lines 73-79. -/
def run_total (data : List RlEncodedPixels) : Nat :=
  (data.map (fun r => r.count)).sum

/-- A well-formed ObjectDefinition segment payload declaring width 2 and
height 2 whose pixel data is the single byte 0x05, one run of a single
pixel. -/
def c5_mismatched_bytes : List Nat :=
  [0x00, 0x0C, 0x00, 0x01, 0x00, 0xC0, 0x00, 0x00, 0x05, 0x00, 0x02, 0x00, 0x02, 0x05]

/-- C5 counterexample: the parser accepts an ObjectDefinition whose decoded
run lengths total 1 while width times height is 4; no check relates the two
quantities. -/
theorem parse_object_definition_accepts_mismatched_total :
    (parse_object_definition_segment c5_mismatched_bytes).map
        (fun r => (run_total r.1.data, r.1.width * r.1.height)) = some (1, 4) ∧
    (1 : Nat) ≠ 4 := by
  decide

/-- C5 as amended: the parser imposes no relation between the decoded run
total and width times height — for every declared width and height bytes, the
same single-pixel payload is accepted unchanged. -/
theorem parse_object_definition_no_total_check (w1 w2 h1 h2 : Nat)
    (hw1 : w1 < 256) (hw2 : w2 < 256) (hh1 : h1 < 256) (hh2 : h2 < 256) :
    parse_object_definition_segment
        [0x00, 0x0C, 0x00, 0x01, 0x00, 0xC0, 0x00, 0x00, 0x05, w1, w2, h1, h2, 0x05] =
      some ({ id := 1, version := 0, last_in_sequence := LastInSequence.FirstAndLast,
              width := w1 * 256 + w2, height := h1 * 256 + h2,
              data := [{ count := 1, color := 5 }] }, []) := by
  rfl

/-- Witness for the no-total-check theorem at width 3 and height 3: the
one-pixel payload is accepted although 1 differs from 9. -/
theorem parse_object_definition_no_total_check_witness :
    parse_object_definition_segment
        [0x00, 0x0C, 0x00, 0x01, 0x00, 0xC0, 0x00, 0x00, 0x05, 0, 3, 0, 3, 0x05] =
      some ({ id := 1, version := 0, last_in_sequence := LastInSequence.FirstAndLast,
              width := 3, height := 3, data := [{ count := 1, color := 5 }] }, []) := by
  have h := parse_object_definition_no_total_check 0 3 0 3
    (by decide) (by decide) (by decide) (by decide)
  simpa using h

/-- Modelled from the spec, for comparison with the source crop test: a pixel
at row-major index p in a frame of the given width lies outside the crop
rectangle of the composition object, taking coordinates relative to the
object top-left as the spec prescribes. -/
def spec_crop_excludes (frame_width : Nat) (co : CompositionObject) (p : Nat) : Bool :=
  match co.cropped with
  | none => false
  | some crop =>
    let rx := p % frame_width - co.horizontal_position
    let ry := p / frame_width - co.vertical_position
    rx < crop.horizontal_position || rx ≥ crop.horizontal_position + crop.width ||
      ry < crop.vertical_position || ry ≥ crop.vertical_position + crop.height

/-- Palette entry used by the crop divergence display set. -/
def c2_entry : PaletteEntry :=
  { id := 1, luminance := 10, color_difference_red := 20,
    color_difference_blue := 30, alpha := 40 }

/-- Palette used by the crop divergence display set. -/
def c2_pd : PaletteDefinition := { id := 0, version := 0, entries := [(1, c2_entry)] }

/-- A 4 by 2 object painted as a single run of eight pixels of color 1. -/
def c2_od : ObjectDefinition :=
  { id := 1, version := 0, last_in_sequence := LastInSequence.FirstAndLast,
    width := 4, height := 2, data := [{ count := 8, color := 1 }] }

/-- Composition object at the frame origin with a 2 by 2 crop rectangle at
the object origin, strictly smaller than the 4 by 2 object. -/
def c2_co : CompositionObject :=
  { id := 1, window_id := 0, horizontal_position := 0, vertical_position := 0,
    cropped := some { horizontal_position := 0, vertical_position := 0,
                      width := 2, height := 2 } }

/-- Display set of a 4 by 2 frame containing only the cropped object. -/
def c2_ds : DisplaySet :=
  { presentation_timestamp := 0, decoding_timestamp := 0, width := 4, height := 2,
    frame_rate := 0, composition_number := 0,
    composition_state := CompositionState.EpochStart, palette_update := false,
    palette_id := 0, composition_objects := [c2_co], windows := [],
    palettes := [(0, c2_pd)], objects := [(1, c2_od)] }

/-- C2: painting the crop display set writes the resolved entry at buffer
pixels 0 to 3 and leaves pixels 4 to 7 at zero, because is_cropped_1 reduces
the global buffer pixel index modulo the crop width.  Pixel 2 — outside the
crop rectangle relative to the object top-left — is painted, while pixel 4 —
inside that rectangle — stays zero, the opposite of the claimed behaviour. -/
theorem render_crop_uses_wrong_coordinates :
    render_paint c2_ds = Except.ok
      [40, 10, 30, 20, 40, 10, 30, 20, 40, 10, 30, 20, 40, 10, 30, 20,
       0, 0, 0, 0, 0, 0, 0, 0, 0, 0, 0, 0, 0, 0, 0, 0] ∧
    spec_crop_excludes 4 c2_co 2 = true ∧
    is_cropped (2 * PIXEL_SIZE) c2_co = false ∧
    spec_crop_excludes 4 c2_co 4 = false ∧
    is_cropped (4 * PIXEL_SIZE) c2_co = true := by
  decide

/-- C3 counterexample: frame width 4, object occupying columns 2 and 3, so
the object right edge coincides with the frame width.  From the last object
column of the first scanline (pixel index 3, byte offset 12) the cursor moves
to byte offset 16, which is column 0 of the next scanline, not column 2 as
claimed; the claimed wrap target would be byte offset 24. -/
theorem move_one_pixel_forward_edge_counterexample :
    move_one_pixel_forward 12 4 2 2 = 16 ∧
    (16 / PIXEL_SIZE) % 4 = 0 ∧ ¬ ((0 : Nat) = 2) ∧
    ¬ move_one_pixel_forward 12 4 2 2 = 24 := by
  decide

/-- C3 as amended: starting from a pixel index p whose column lies within the
object columns, one cursor step either advances to the next column of the
same scanline or, upon reaching the object right edge, wraps to column h of
the next scanline — provided the object lies strictly inside the frame width,
or spans the full frame width from column 0.  (When h + ow equals the frame
width with h positive, or exceeds it, the wrap condition of the source never
fires and the cursor does not return to column h.) -/
theorem move_one_pixel_forward_wraps (w h ow p : Nat)
    (hcase : h + ow < w ∨ (h = 0 ∧ ow = w)) (how : 0 < ow)
    (hx1 : h ≤ p % w) (hx2 : p % w < h + ow) :
    move_one_pixel_forward (p * PIXEL_SIZE) w h ow =
      (if p % w + 1 < h + ow then p + 1 else (p / w + 1) * w + h) * PIXEL_SIZE := by
  have hw : 0 < w := by rcases hcase with hc | hc <;> omega
  have hxw : p % w < w := Nat.mod_lt _ hw
  have hdm : w * (p / w) + p % w = p := Nat.div_add_mod p w
  have hmod : (p + 1) % w = if p % w + 1 < w then p % w + 1 else 0 := by
    have hp1 : p + 1 = w * (p / w) + (p % w + 1) := by omega
    rw [hp1, Nat.mul_add_mod]
    by_cases hc2 : p % w + 1 < w
    · rw [if_pos hc2, Nat.mod_eq_of_lt hc2]
    · have he : p % w + 1 = w := by omega
      rw [if_neg hc2, he, Nat.mod_self]
  have e1 : (p * PIXEL_SIZE + PIXEL_SIZE) / PIXEL_SIZE = p + 1 := by
    simp only [PIXEL_SIZE]
    omega
  simp only [move_one_pixel_forward]
  rw [e1, hmod]
  have hrw : (p / w + 1) * w + h = w * (p / w) + w + h := by ring
  rw [hrw]
  simp only [PIXEL_SIZE]
  generalize hA : w * (p / w) = A at hdm ⊢
  generalize hX : p % w = x at hdm hx1 hx2 hxw ⊢
  rcases hcase with hc | hc
  · split_ifs <;> omega
  · split_ifs <;> omega

/-- Witness for the wrap theorem: frame width 10, object columns 2 to 4; a
step from pixel index 4 (the object right edge of scanline 0) lands on pixel
index 12, column 2 of scanline 1. -/
theorem move_one_pixel_forward_wraps_witness :
    move_one_pixel_forward 16 10 2 3 = 48 := by
  have h := move_one_pixel_forward_wraps 10 2 3 4 (Or.inl (by decide))
    (by decide) (by decide) (by decide)
  simpa [PIXEL_SIZE] using h

/-- Window defined only in the first epoch of the epoch-reset scenario. -/
def c7_w : Window :=
  { id := 7, horizontal_position := 0, vertical_position := 0, width := 1, height := 1 }

/-- Palette entry of the second epoch. -/
def c7_entry : PaletteEntry :=
  { id := 1, luminance := 100, color_difference_red := 128,
    color_difference_blue := 128, alpha := 255 }

/-- Palette of the second epoch. -/
def c7_pd : PaletteDefinition := { id := 0, version := 0, entries := [(1, c7_entry)] }

/-- Object of the second epoch: a single pixel of color 1. -/
def c7_od : ObjectDefinition :=
  { id := 3, version := 0, last_in_sequence := LastInSequence.FirstAndLast,
    width := 1, height := 1, data := [{ count := 1, color := 1 }] }

/-- Composition object of the second epoch, referencing window 7, which is
defined only in the first epoch. -/
def c7_co : CompositionObject :=
  { id := 3, window_id := 7, horizontal_position := 0, vertical_position := 0,
    cropped := none }

/-- First-epoch composition: EpochStart, no composition objects. -/
def c7_pc1 : PresentationComposition :=
  { width := 1, height := 1, frame_rate := 0, composition_number := 0,
    composition_state := CompositionState.EpochStart, palette_update := false,
    palette_id := 0, composition_objects := [] }

/-- Second-epoch composition: EpochStart, one composition object. -/
def c7_pc2 : PresentationComposition :=
  { c7_pc1 with composition_number := 1, composition_objects := [c7_co] }

/-- Two epochs: the first defines window 7, the second starts with EpochStart
and defines only a palette and an object. -/
def c7_pgs : Pgs := { segments :=
  [{ pts := 0, dts := 0, contents := SegmentContents.PresentationComposition c7_pc1 },
   { pts := 0, dts := 0, contents := SegmentContents.WindowDefinition { windows := [c7_w] } },
   { pts := 0, dts := 0, contents := SegmentContents.End },
   { pts := 90000, dts := 90000, contents := SegmentContents.PresentationComposition c7_pc2 },
   { pts := 90000, dts := 90000, contents := SegmentContents.PaletteDefinition c7_pd },
   { pts := 90000, dts := 90000, contents := SegmentContents.ObjectDefinition c7_od },
   { pts := 90000, dts := 90000, contents := SegmentContents.End }] }

/-- The display set produced by the first epoch. -/
def c7_ds1 : DisplaySet :=
  { presentation_timestamp := 0, decoding_timestamp := 0, width := 1, height := 1,
    frame_rate := 0, composition_number := 0,
    composition_state := CompositionState.EpochStart, palette_update := false,
    palette_id := 0, composition_objects := [], windows := [(7, c7_w)],
    palettes := [], objects := [] }

/-- The display set produced by the second epoch: its window map is empty. -/
def c7_ds2 : DisplaySet :=
  { presentation_timestamp := 90000, decoding_timestamp := 90000, width := 1,
    height := 1, frame_rate := 0, composition_number := 1,
    composition_state := CompositionState.EpochStart, palette_update := false,
    palette_id := 0, composition_objects := [c7_co], windows := [],
    palettes := [(0, c7_pd)], objects := [(3, c7_od)] }

/-- C7 counterexample: after the EpochStart reset the second display set
carries no window, its composition object still references window 7 of the
previous epoch, and yet rendering succeeds — the renderer never resolves
window ids, so a stale window reference does not fail with a not-found
error as claimed. -/
theorem epoch_reset_stale_window_renders :
    get_display_sets c7_pgs = Except.ok [c7_ds1, c7_ds2] ∧
    c7_ds2.windows = [] ∧
    map_get c7_ds1.windows 7 = some c7_w ∧
    c7_co.window_id = 7 ∧
    c7_ds2.composition_objects = [c7_co] ∧
    render_display_set c7_ds2 = Except.ok [100, 100, 100, 255] := by
  decide

/-- C7 as amended: a PresentationComposition with EpochStart makes next
independent of the incoming carried maps (they are cleared before any merge,
so the resulting display set holds only entries from segments at or after
the EpochStart); a render whose first composition object has no entry in the
object map fails with ObjectNotFound; and one whose resolved object has pixel
data but whose display set lacks palette 0 fails with PaletteNotFound.
Window references are never resolved by the renderer, so only object and
palette references from a previous epoch fail. -/
theorem epoch_reset_clears_maps :
    (∀ (pgs : Pgs) (s : IterState) (seg : Segment) (pc : PresentationComposition),
        pgs.segments[s.index]? = some seg →
        seg.contents = SegmentContents.PresentationComposition pc →
        pc.composition_state = CompositionState.EpochStart →
        DisplaySetIterator.next pgs s =
          DisplaySetIterator.next pgs
            { index := s.index, windows := [], palettes := [], objects := [] }) ∧
    (∀ (ds : DisplaySet) (co : CompositionObject) (rest : List CompositionObject),
        ds.composition_objects = co :: rest →
        map_get ds.objects co.id = none →
        render_display_set ds = Except.error (RenderErr.ObjectNotFound co.id)) ∧
    (∀ (ds : DisplaySet) (co : CompositionObject) (rest : List CompositionObject)
        (od : ObjectDefinition) (r : RlEncodedPixels) (rs : List RlEncodedPixels),
        ds.composition_objects = co :: rest →
        map_get ds.objects co.id = some od →
        od.data = r :: rs →
        map_get ds.palettes 0 = none →
        render_display_set ds = Except.error (RenderErr.PaletteNotFound 0 r.color)) := by
  refine ⟨?_, ?_, ?_⟩
  · intro pgs s seg pc hseg hc hes
    simp [DisplaySetIterator.next, hseg, hc, hes]
  · intro ds co rest hobj hnone
    simp [render_display_set, render_paint, hobj, paint_objects, hnone]
  · intro ds co rest od r rs hobj hsome hdata hpal
    simp [render_display_set, render_paint, hobj, paint_objects, hsome, hdata,
      paint_runs, resolve_color, hpal]

/-- A minimal display set used to instantiate hypothesised theorems. -/
def w_ds : DisplaySet :=
  { presentation_timestamp := 0, decoding_timestamp := 0, width := 0, height := 0,
    frame_rate := 0, composition_number := 0,
    composition_state := CompositionState.Normal, palette_update := false,
    palette_id := 0, composition_objects := [], windows := [], palettes := [],
    objects := [] }

/-- One-segment stream whose head composition is an EpochStart. -/
def c7w_pgs : Pgs := { segments :=
  [{ pts := 5, dts := 6, contents := SegmentContents.PresentationComposition c7_pc2 }] }

/-- An iterator state carrying stale maps from a previous epoch. -/
def c7w_state : IterState :=
  { index := 0, windows := [(9, c7_w)], palettes := [(4, c7_pd)], objects := [(8, c7_od)] }

/-- The second-epoch display set with its object map removed. -/
def c7w_ds_noobj : DisplaySet := { c7_ds2 with objects := [] }

/-- The second-epoch display set with its palette map removed. -/
def c7w_ds_nopal : DisplaySet := { c7_ds2 with palettes := [] }

/-- Witness for the epoch-reset theorem: next ignores stale carried maps on
an EpochStart head, a missing object yields ObjectNotFound and a missing
palette yields PaletteNotFound. -/
theorem epoch_reset_clears_maps_witness :
    DisplaySetIterator.next c7w_pgs c7w_state =
      DisplaySetIterator.next c7w_pgs
        { index := 0, windows := [], palettes := [], objects := [] } ∧
    render_display_set c7w_ds_noobj = Except.error (RenderErr.ObjectNotFound 3) ∧
    render_display_set c7w_ds_nopal = Except.error (RenderErr.PaletteNotFound 0 1) :=
  ⟨epoch_reset_clears_maps.1 c7w_pgs c7w_state
      { pts := 5, dts := 6, contents := SegmentContents.PresentationComposition c7_pc2 }
      c7_pc2 rfl rfl rfl,
   epoch_reset_clears_maps.2.1 c7w_ds_noobj c7_co [] rfl rfl,
   epoch_reset_clears_maps.2.2 c7w_ds_nopal c7_co [] c7_od
      { count := 1, color := 1 } [] rfl rfl rfl rfl⟩

/-- Test for the panicked outcome of the accumulation loop. -/
def AccResult.is_panicked : AccResult → Bool
  | AccResult.panicked _ => true
  | _ => false

/-- C8: while a group is being accumulated, a segment whose timestamp pair
differs from the group pair makes the loop panic (part one); a group that
yields a display set consists exclusively of segments sharing the group pair,
so a mismatched group never produces a display set (part two); and a panic of
next surfaces as an error of the display-set walk (part three). -/
theorem group_timestamp_cohesion :
    (∀ (segs : List Segment) (pts dts fuel : Nat) (ds : DisplaySet)
        (idx : Nat) (seg : Segment), segs[idx]? = some seg →
        (seg.pts ≠ pts ∨ seg.dts ≠ dts) →
        (accumulate_group segs pts dts (fuel + 1) ds idx).is_panicked = true) ∧
    (∀ (segs : List Segment) (pts dts : Nat) (fuel : Nat) (ds ds' : DisplaySet)
        (idx j : Nat),
        accumulate_group segs pts dts fuel ds idx = AccResult.yielded ds' j →
        ∀ k seg, idx ≤ k → k < j → segs[k]? = some seg →
          seg.pts = pts ∧ seg.dts = dts) ∧
    (∀ (pgs : Pgs) (s : IterState) (m : String) (fuel : Nat),
        DisplaySetIterator.next pgs s = NextResult.panicked m →
        display_sets_from pgs (fuel + 1) s = Except.error m) := by
  refine ⟨?_, ?_, ?_⟩
  · intro segs pts dts fuel ds idx seg hseg hne
    by_cases h1 : seg.pts = pts
    · have h2 : seg.dts ≠ dts := by
        rcases hne with h | h
        · exact absurd h1 h
        · exact h
      simp [accumulate_group, hseg, h1, h2, AccResult.is_panicked]
    · simp [accumulate_group, hseg, h1, AccResult.is_panicked]
  · intro segs pts dts fuel
    induction fuel with
    | zero =>
      intro ds ds' idx j h
      simp [accumulate_group] at h
    | succ n ih =>
      intro ds ds' idx j h k seg hk1 hk2 hseg
      cases hidx : segs[idx]? with
      | none => simp [accumulate_group, hidx] at h
      | some seg0 =>
        by_cases h1 : seg0.pts = pts
        · by_cases h2 : seg0.dts = dts
          · simp only [accumulate_group, hidx, h1, h2, ne_eq, not_true_eq_false,
              if_false, ite_false] at h
            cases hc : seg0.contents with
            | PresentationComposition pc => simp [hc] at h
            | WindowDefinition wd =>
              rw [hc] at h
              rcases Nat.lt_or_ge k (idx + 1) with hk | hk
              · have hek : k = idx := by omega
                subst hek
                rw [hidx] at hseg
                injection hseg with he
                subst he
                exact ⟨h1, h2⟩
              · exact ih _ _ _ _ h k seg hk hk2 hseg
            | PaletteDefinition pd =>
              rw [hc] at h
              rcases Nat.lt_or_ge k (idx + 1) with hk | hk
              · have hek : k = idx := by omega
                subst hek
                rw [hidx] at hseg
                injection hseg with he
                subst he
                exact ⟨h1, h2⟩
              · exact ih _ _ _ _ h k seg hk hk2 hseg
            | ObjectDefinition od =>
              rw [hc] at h
              rcases Nat.lt_or_ge k (idx + 1) with hk | hk
              · have hek : k = idx := by omega
                subst hek
                rw [hidx] at hseg
                injection hseg with he
                subst he
                exact ⟨h1, h2⟩
              · exact ih _ _ _ _ h k seg hk hk2 hseg
            | End =>
              rw [hc] at h
              simp only [AccResult.yielded.injEq] at h
              obtain ⟨hds, hj⟩ := h
              have hek : k = idx := by omega
              subst hek
              rw [hidx] at hseg
              injection hseg with he
              subst he
              exact ⟨h1, h2⟩
          · simp [accumulate_group, hidx, h1, h2] at h
        · simp [accumulate_group, hidx, h1] at h
  · intro pgs s m fuel h
    simp [display_sets_from, h]

/-- Presentation composition used by the group-cohesion witnesses. -/
def c8_pc : PresentationComposition :=
  { width := 0, height := 0, frame_rate := 0, composition_number := 0,
    composition_state := CompositionState.Normal, palette_update := false,
    palette_id := 0, composition_objects := [] }

/-- A segment whose presentation timestamp differs from the group pair (0, 0). -/
def c8_mismatch_seg : Segment := { pts := 1, dts := 0, contents := SegmentContents.End }

/-- An End segment sharing the group pair (0, 0). -/
def c8_end_seg : Segment := { pts := 0, dts := 0, contents := SegmentContents.End }

/-- A group whose second segment breaks the timestamp pair of its
composition header. -/
def c8_pgs : Pgs := { segments :=
  [{ pts := 0, dts := 0, contents := SegmentContents.PresentationComposition c8_pc },
   c8_mismatch_seg] }

/-- Witness for the group-cohesion theorem: a mismatched segment panics the
accumulation, a yielded group pins the pair of its segments, and the panic
surfaces as an error of the walk. -/
theorem group_timestamp_cohesion_witness :
    (accumulate_group [c8_mismatch_seg] 0 0 1 w_ds 0).is_panicked = true ∧
    (c8_end_seg.pts = 0 ∧ c8_end_seg.dts = 0) ∧
    display_sets_from c8_pgs 1 IterState.new =
      Except.error "Presentation timestamp mismatch" :=
  ⟨group_timestamp_cohesion.1 [c8_mismatch_seg] 0 0 0 w_ds 0 c8_mismatch_seg
      rfl (Or.inl (by decide)),
   group_timestamp_cohesion.2.1 [c8_end_seg] 0 0 2 w_ds w_ds 0 1
      (by decide) 0 c8_end_seg (by decide) (by decide) rfl,
   group_timestamp_cohesion.2.2 c8_pgs IterState.new
      "Presentation timestamp mismatch" 0 (by decide)⟩

/-- One unterminated group: a composition header with no closing End. -/
def c9_pgs : Pgs := { segments :=
  [{ pts := 0, dts := 0, contents := SegmentContents.PresentationComposition c8_pc }] }

/-- C9 counterexample: a stream ending while a group is still being
accumulated walks to the empty display-set list with no error value and no
panic — the source reports no fatal incomplete-stream condition, it simply
returns None from next. -/
theorem unterminated_group_ends_cleanly :
    DisplaySetIterator.next c9_pgs IterState.new = NextResult.ended ∧
    get_display_sets c9_pgs = Except.ok [] := by
  decide

/-- C9 as amended: end of input while awaiting a composition ends the
iteration cleanly, and end of input while a group is still being accumulated
also produces the ended outcome — the unfinished group is silently dropped
and the walk finishes without an error. -/
theorem end_of_input_terminates_cleanly :
    (∀ (pgs : Pgs) (s : IterState), pgs.segments.length ≤ s.index →
        DisplaySetIterator.next pgs s = NextResult.ended) ∧
    (∀ (segs : List Segment) (pts dts fuel : Nat) (ds : DisplaySet) (idx : Nat),
        segs.length ≤ idx →
        accumulate_group segs pts dts fuel ds idx = AccResult.ended) ∧
    (∀ (pgs : Pgs) (s : IterState) (fuel : Nat),
        DisplaySetIterator.next pgs s = NextResult.ended →
        display_sets_from pgs (fuel + 1) s = Except.ok []) := by
  refine ⟨?_, ?_, ?_⟩
  · intro pgs s h
    simp [DisplaySetIterator.next, List.getElem?_eq_none h]
  · intro segs pts dts fuel ds idx h
    cases fuel with
    | zero => rfl
    | succ n => simp [accumulate_group, List.getElem?_eq_none h]
  · intro pgs s fuel h
    simp [display_sets_from, h]

/-- Witness for the clean-termination theorem on the unterminated stream:
past-the-end states end the iteration, the accumulation loop ends at the end
of the segment list, and an ended next makes the walk return the empty list. -/
theorem end_of_input_terminates_cleanly_witness :
    DisplaySetIterator.next c9_pgs
      { index := 1, windows := [], palettes := [], objects := [] } =
      NextResult.ended ∧
    accumulate_group c9_pgs.segments 0 0 5 w_ds 1 = AccResult.ended ∧
    display_sets_from c9_pgs 1
      { index := 1, windows := [], palettes := [], objects := [] } =
      Except.ok [] :=
  ⟨end_of_input_terminates_cleanly.1 c9_pgs _ (by decide),
   end_of_input_terminates_cleanly.2.1 c9_pgs.segments 0 0 5 w_ds 1 (by decide),
   end_of_input_terminates_cleanly.2.2 c9_pgs _ 0
     (end_of_input_terminates_cleanly.1 c9_pgs _ (by decide))⟩

/-- C10: when the segment at the iterator position is not a
PresentationComposition, next ends the iteration with no display set and no
panic, and the remainder of the walk from that state yields the empty list —
the segment and everything after it are silently discarded. -/
theorem non_composition_at_boundary_discards_rest :
    ∀ (pgs : Pgs) (s : IterState) (seg : Segment) (fuel : Nat),
      pgs.segments[s.index]? = some seg →
      (∀ pc, seg.contents ≠ SegmentContents.PresentationComposition pc) →
      DisplaySetIterator.next pgs s = NextResult.ended ∧
      display_sets_from pgs (fuel + 1) s = Except.ok [] := by
  intro pgs s seg fuel hseg hnpc
  have hnext : DisplaySetIterator.next pgs s = NextResult.ended := by
    cases hc : seg.contents with
    | PresentationComposition pc => exact absurd hc (hnpc pc)
    | WindowDefinition wd => simp [DisplaySetIterator.next, hseg, hc]
    | PaletteDefinition pd => simp [DisplaySetIterator.next, hseg, hc]
    | ObjectDefinition od => simp [DisplaySetIterator.next, hseg, hc]
    | End => simp [DisplaySetIterator.next, hseg, hc]
  exact ⟨hnext, by simp [display_sets_from, hnext]⟩

/-- A stream whose first segment is an End, followed by a well-formed group:
everything is discarded because the walk stands at a group boundary. -/
def c10_pgs : Pgs := { segments :=
  [c8_end_seg,
   { pts := 0, dts := 0, contents := SegmentContents.PresentationComposition c8_pc },
   c8_end_seg] }

/-- Witness for the boundary-discard theorem: with an End segment at the
boundary the iteration ends at once and the walk yields nothing, discarding
the well-formed group that follows. -/
theorem non_composition_at_boundary_discards_rest_witness :
    DisplaySetIterator.next c10_pgs IterState.new = NextResult.ended ∧
    display_sets_from c10_pgs 4 IterState.new = Except.ok [] :=
  non_composition_at_boundary_discards_rest c10_pgs IterState.new c8_end_seg 3
    rfl (fun pc h => SegmentContents.noConfusion h)

/-- The two-segment byte stream of the end-to-end scenario: a
PresentationComposition segment (tag 0x16, pts 0, dts 0, width 2, height 1,
zero composition objects) followed by an End segment (tag 0x80). -/
def c6_bytes : List Nat :=
  [0x50, 0x47, 0, 0, 0, 0, 0, 0, 0, 0, 0x16,
   0x00, 0x0B, 0x00, 0x02, 0x00, 0x01, 0x10, 0x00, 0x00, 0x00, 0x00, 0x00, 0x00,
   0x50, 0x47, 0, 0, 0, 0, 0, 0, 0, 0, 0x80, 0x00, 0x00]

/-- The composition carried by the first segment of the scenario. -/
def c6_pc : PresentationComposition :=
  { width := 2, height := 1, frame_rate := 16, composition_number := 0,
    composition_state := CompositionState.Normal, palette_update := false,
    palette_id := 0, composition_objects := [] }

/-- The parsed form of the two-segment stream. -/
def c6_pgs : Pgs := { segments :=
  [{ pts := 0, dts := 0, contents := SegmentContents.PresentationComposition c6_pc },
   { pts := 0, dts := 0, contents := SegmentContents.End }] }

/-- The single display set of the scenario. -/
def c6_ds : DisplaySet :=
  { presentation_timestamp := 0, decoding_timestamp := 0, width := 2, height := 1,
    frame_rate := 16, composition_number := 0,
    composition_state := CompositionState.Normal, palette_update := false,
    palette_id := 0, composition_objects := [], windows := [], palettes := [],
    objects := [] }

/-- The converted output of the scenario: per pixel, red 0, green 84, blue 0,
alpha 0 — zero chroma bytes lie 128 below the bias, so the green channel of
the conversion is nonzero although the packed buffer is all zero. -/
def c6_rgba : List Nat := [0, 84, 0, 0, 0, 84, 0, 0]

/-- C6 counterexample: the scenario stream parses, yields exactly one display
set, and renders successfully to an 8-byte buffer — but that buffer is not
all zero: converting the all-zero packed pixel under the spec-modelled fixed
BT.709 full-range matrix gives a nonzero green byte. -/
theorem end_to_end_buffer_not_all_zero :
    parse_pgs c6_bytes = some c6_pgs ∧
    get_display_sets c6_pgs = Except.ok [c6_ds] ∧
    render_display_set c6_ds = Except.ok c6_rgba ∧
    c6_rgba ≠ List.replicate 8 0 := by
  decide

/-- C6 as amended: the two-segment stream parses; iterating display sets
yields exactly one DisplaySet with an empty composition-object list;
rendering succeeds; the packed buffer before conversion is the all-zero
2 by 1 by 4 buffer; and the converted 8-byte buffer is fully transparent
(every alpha byte zero) with red and blue zero but green 84 under the
spec-modelled BT.709 full-range conversion, hence not all zero. -/
theorem end_to_end_scenario :
    parse_pgs c6_bytes = some c6_pgs ∧
    get_display_sets c6_pgs = Except.ok [c6_ds] ∧
    c6_ds.composition_objects = [] ∧
    render_paint c6_ds = Except.ok (List.replicate 8 0) ∧
    render_display_set c6_ds = Except.ok c6_rgba ∧
    c6_rgba.length = 2 * 1 * 4 ∧
    c6_rgba[3]? = some 0 ∧ c6_rgba[7]? = some 0 ∧
    c6_rgba[1]? = some 84 := by
  decide
